import Mathlib

/-!
Verification of the simulation core of `eyes_adjust_to_the_dark`
(a Rust/libtcod roguelike) against its natural-language specification.

The repository contains two generations of the code base:

* `src/main.rs` — a self-contained early version holding the combat code
  (`Object::take_damage`, `Object::attack`, death callbacks) and the room
  rectangle type (`Rect`), embedded below in namespace `MainRs`.
* `src/ai.rs`, `src/helper.rs`, `src/mapgen.rs`, `src/render.rs`,
  `src/spells.rs` — the later multi-file version.  Its support modules
  `user_defined.rs` and `constants.rs` are not in the repository, so the
  types they declare (the component structs, the `Ai` sum type, the game
  session record) and the tuning constants are modelled from the
  specification (§3 of spec.md) and from their uses in the present files;
  each such definition carries a doc comment saying so.  The functions of
  the present files are translated directly from their source.

Display-only data (tcod colours attached to log messages and glyphs) is
not semantically relevant to any claim; log entries are modelled as plain
strings and colours of drawn objects as an RGB record where the old
`main.rs` stores them in a field.

Randomness (`rand::thread_rng().gen_range`, coin flips) and the tcod FOV
primitive are external collaborators; they are modelled as explicit
arguments of the embedded functions, so theorems quantify over every
possible draw.  Fallible code paths (Rust indexing panics, `unwrap`, the
blocking menu loop) are modelled with `Option`.
-/

namespace MainRs

/-- RGB colour record standing in for `tcod::colors::Color` (main.rs only
stores and copies these; the numeric values are irrelevant to behaviour). -/
structure Color where
  r : Nat
  g : Nat
  b : Nat
deriving DecidableEq, Repr

/-- Rust `colors::WHITE` from tcod. -/
def WHITE : Color := ⟨255, 255, 255⟩

/-- Rust `colors::DARK_RED` from tcod. -/
def DARK_RED : Color := ⟨191, 0, 0⟩

/-- Rust `enum DeathCallback { Player, Monster }` — main.rs lines 147-151. -/
inductive DeathCallback where
  | Player : DeathCallback
  | Monster : DeathCallback
deriving DecidableEq, Repr

/-- Rust `struct Fighter` — main.rs lines 134-141 (i32 fields modelled as `Int`). -/
structure Fighter where
  max_hp : Int
  hp : Int
  defense : Int
  power : Int
  on_death : DeathCallback
deriving DecidableEq, Repr

/-- Rust `struct Object` — main.rs lines 46-57.  The `ai` component of this early
version is the unit struct `struct Ai;`, modelled as `Option Unit`. -/
structure Object where
  x : Int
  y : Int
  char : Char
  color : Color
  name : String
  blocks : Bool
  alive : Bool
  fighter : Option Fighter
  ai : Option Unit
deriving DecidableEq, Repr

/-- Rust `player_death` — main.rs lines 566-573.  Returns the mutated object and
the printed messages. -/
def player_death (player : Object) : Object × List String :=
  ({ player with char := '%', color := DARK_RED }, ["You died!"])

/-- Rust `monster_death` — main.rs lines 575-584. -/
def monster_death (monster : Object) : Object × List String :=
  ({ monster with
        char := '%'
        color := DARK_RED
        blocks := false
        fighter := none
        ai := none
        name := "remains of " ++ monster.name },
   [monster.name ++ " is dead!"])

/-- Rust `DeathCallback::callback` — main.rs lines 153-162. -/
def DeathCallback.callback (self : DeathCallback) (object : Object) :
    Object × List String :=
  match self with
  | .Player => player_death object
  | .Monster => monster_death object

/-- Rust `Object::take_damage` — main.rs lines 103-117.  First the damage is
applied when positive and a fighter is present; then, re-reading the
fighter, a non-positive hp marks the object dead and runs its death
callback. -/
def Object.take_damage (self : Object) (damage : Int) : Object × List String :=
  let self1 :=
    match self.fighter with
    | some f => if 0 < damage then { self with fighter := some { f with hp := f.hp - damage } } else self
    | none => self
  match self1.fighter with
  | some f =>
      if f.hp ≤ 0 then f.on_death.callback { self1 with alive := false }
      else (self1, [])
  | none => (self1, [])

/-- Damage formula of `Object::attack` — main.rs line 121:
`self.fighter.map_or(0, |f| f.power) - target.fighter.map_or(0, |f| f.defense)`. -/
def damage_of (self target : Object) : Int :=
  (self.fighter.map Fighter.power).getD 0 - (target.fighter.map Fighter.defense).getD 0

/-- Rust `Object::attack` — main.rs lines 119-129.  Returns the updated target
and the printed messages. -/
def Object.attack (self target : Object) : Object × List String :=
  let damage := damage_of self target
  if 0 < damage then
    let (t2, msgs) := target.take_damage damage
    (t2, (self.name ++ " attacks " ++ target.name ++ " for " ++ toString damage ++ " hit points") :: msgs)
  else
    (target, [self.name ++ " attacks " ++ target.name ++ " but it has no effect"])

/-- Rust `struct Rect` — main.rs lines 183-189. -/
structure Rect where
  x1 : Int
  y1 : Int
  x2 : Int
  y2 : Int
deriving DecidableEq, Repr

/-- Rust `Rect::new` — main.rs lines 192-194. -/
def Rect.new (x y w h : Int) : Rect := ⟨x, y, x + w, y + h⟩

/-- Rust `Rect::intersects_with` — main.rs lines 202-207: inclusive-boundary
interval overlap test on both axes. -/
def Rect.intersects_with (self other : Rect) : Bool :=
  (decide (self.x1 ≤ other.x2)) && (decide (self.x2 ≥ other.x1)) &&
    (decide (self.y1 ≤ other.y2)) && (decide (self.y2 ≥ other.y1))

/-- The room-acceptance loop of `make_map` — mapgen.rs lines 37-89 (and
identically main.rs lines 326-377): each random candidate rectangle is
accepted, and appended to `rooms`, exactly when it intersects no
previously accepted room.  The random candidates are the explicit input
list; carving tiles and populating objects do not influence acceptance. -/
def accept_rooms (candidates : List Rect) : List Rect :=
  candidates.foldl
    (fun rooms new_room =>
      if rooms.any (fun other_room => new_room.intersects_with other_room) then rooms
      else rooms ++ [new_room])
    []

end MainRs

namespace UserDefined

/-- Modelled from the spec: `user_defined.rs` is absent; spec.md §3 lists the
death-callback tag carried by `Fighter.onDeath` as `Player` or `Monster`,
matching the uses in mapgen.rs lines 143 and 149. -/
inductive DeathCallback where
  | Player : DeathCallback
  | Monster : DeathCallback
deriving DecidableEq, Repr

/-- Modelled from the spec: equipment slots (spec.md §3 `Equipment.slot`),
variants `LeftHand`/`RightHand` as used in mapgen.rs lines 216 and 223. -/
inductive Slot where
  | LeftHand : Slot
  | RightHand : Slot
deriving DecidableEq, Repr

/-- Modelled from the spec: the `Item` tagged variant (spec.md §3), with the
six variants matched in helper.rs lines 150-157. -/
inductive Item where
  | Heal : Item
  | Lightning : Item
  | Confuse : Item
  | Fireball : Item
  | Sword : Item
  | Shield : Item
deriving DecidableEq, Repr

/-- Modelled from the spec: the AI sum type (spec.md §3 and §4.3):
`Basic` or `Confused{previousAi, remainingTurns}`, exactly as matched in
ai.rs lines 15-19 and built in spells.rs lines 52-55.  Rust boxes the
recursive `previous_ai` field; the Lean inductive is directly recursive. -/
inductive Ai where
  | Basic : Ai
  | Confused (previous_ai : Ai) (num_turns : Int) : Ai
deriving DecidableEq, Repr

/-- Nesting depth of `Confused` wrappers around an AI value: 0 for `Basic`,
one more than the depth of `previous_ai` for `Confused`. -/
def Ai.depth : Ai → Nat
  | .Basic => 0
  | .Confused previous_ai _ => previous_ai.depth + 1

/-- Modelled from the spec: `Fighter` component (spec.md §3
`{baseMaxHp, hp, baseDefense, basePower, xp, onDeath}`), matching the
construction in mapgen.rs lines 143/149 and the field uses in helper.rs. -/
structure Fighter where
  base_max_hp : Int
  hp : Int
  base_defense : Int
  base_power : Int
  xp : Int
  on_death : DeathCallback
deriving DecidableEq, Repr

/-- Modelled from the spec: `Equipment` component (spec.md §3
`{slot, equipped, maxHpBonus, powerBonus, defenseBonus}`), matching
mapgen.rs lines 216/223 and helper.rs lines 95-102. -/
structure Equipment where
  equipped : Bool
  slot : Slot
  max_hp_bonus : Int
  power_bonus : Int
  defense_bonus : Int
deriving DecidableEq, Repr

/-- Modelled from the spec: light `Emitter` component (spec.md §3
`{radius}`; the colour stored alongside it in mapgen.rs line 243 is
display-only and omitted). -/
structure Emitter where
  radius : Int
deriving DecidableEq, Repr

/-- Modelled from the spec: the Entity record of the multi-file version
(spec.md §3), with the fields used by ai.rs/helper.rs/mapgen.rs/spells.rs:
position, name, `blocks`, `alive`, `always_visible`, the player `level`
counter read by `level_up`, and the optional capability components.
Display-only glyph/colour fields are omitted. -/
structure Object where
  x : Int
  y : Int
  name : String
  blocks : Bool
  alive : Bool
  always_visible : Bool
  level : Int
  fighter : Option Fighter
  ai : Option Ai
  item : Option Item
  equipment : Option Equipment
  emitter : Option Emitter
deriving DecidableEq, Repr

/-- Modelled from the spec: per-tile state (spec.md §3
`{blocked, blocksSight, explored, lit}`), matching the field uses in
helper.rs line 12 and render.rs lines 45, 61-62, 88. -/
structure Tile where
  blocked : Bool
  block_sight : Bool
  explored : Bool
  lit : Bool
deriving DecidableEq, Repr

/-- The level map: `type Map = Vec<Vec<Tile>>` (column-major, indexed
`map[x][y]` throughout the source). -/
abbrev Map := List (List Tile)

/-- Modelled from the spec: the Game Session record (spec.md §3) with the
fields used by the present files: level map, message log (colour tags are
display-only and dropped, keeping the message text), player inventory,
and dungeon level. -/
structure Game where
  map : Map
  log : List String
  inventory : List Object
  dungeon_level : Nat
deriving DecidableEq, Repr

/-- Modelled from the spec: `UseResult` (spec.md §6
`UseResult{UsedUp|UsedAndKept|Cancelled}`), matched in helper.rs 158-167. -/
inductive UseResult where
  | UsedUp : UseResult
  | UsedAndKept : UseResult
  | Cancelled : UseResult
deriving DecidableEq, Repr

/-- Rust `Object::pos` of the multi-file version (same as main.rs lines 86-88). -/
def Object.pos (self : Object) : Int × Int := (self.x, self.y)

/-- Rust `Object::set_pos` of the multi-file version (same as main.rs 91-94). -/
def Object.set_pos (self : Object) (x y : Int) : Object :=
  { self with x := x, y := y }

/-- Modelled from the spec: `Object::equip` from the absent
`user_defined.rs`; spec.md §3 says equip only toggles `Equipment.equipped`
(never ownership), and it appends a log message (text modelled). -/
def Object.equip (self : Object) : Object × String :=
  ({ self with equipment := self.equipment.map (fun e => { e with equipped := true }) },
   "Equipped " ++ self.name ++ ".")

/-- Modelled from the spec: `CONFUSE_NUM_TURNS` from the absent
`constants.rs` (spec.md §4.3 `CONFIGURED_DURATION`); the concrete value is
not recorded in the repository and no claim depends on it. -/
def CONFUSE_NUM_TURNS : Int := 10

/-- Look up the tile at `map[x][y]`; `none` models the index-out-of-bounds
panic of the Rust `x as usize` / `y as usize` indexing. -/
def tileAt (map : Map) (x y : Int) : Option Tile :=
  if 0 ≤ x ∧ 0 ≤ y then (map.get? x.toNat).bind (fun col => col.get? y.toNat)
  else none

/-- Rust `is_blocked` — helper.rs lines 10-19: a position is blocked when its
map tile is blocked or some blocking object stands on it.  `none` models
the panic on out-of-range tile indexing. -/
def is_blocked (x y : Int) (map : Map) (objects : List Object) : Option Bool :=
  (tileAt map x y).map
    (fun tile => tile.blocked || objects.any (fun object => object.blocks && decide (object.pos = (x, y))))

/-- Rust `move_by` — helper.rs lines 42-47: move object `id` by `(dx, dy)` if
the destination is not blocked.  `none` models the panics (bad `id` or
out-of-range destination tile). -/
def move_by (id : Nat) (dx dy : Int) (map : Map) (objects : List Object) :
    Option (List Object) := do
  let o ← objects.get? id
  let b ← is_blocked (o.x + dx) (o.y + dy) map objects
  pure (if b then objects else objects.set id (o.set_pos (o.x + dx) (o.y + dy)))

/-- Rust `ai_confused` — ai.rs lines 41-58.  The two `gen_range(-1, 2)` draws
are the explicit arguments `dx`, `dy`.  Returns the new AI state, the
updated game session, and the updated objects; `none` models the panics
(bad `monster_id`, out-of-range destination tile). -/
def ai_confused (monster_id : Nat) (game : Game) (objects : List Object)
    (previous_ai : Ai) (num_turns : Int) (dx dy : Int) :
    Option (Ai × Game × List Object) :=
  if 0 ≤ num_turns then
    (move_by monster_id dx dy game.map objects).map
      (fun objects2 => (Ai.Confused previous_ai (num_turns - 1), game, objects2))
  else
    (objects.get? monster_id).map
      (fun o =>
        (previous_ai,
         { game with log := game.log ++ ["The " ++ o.name ++ " is no longer confused!"] },
         objects))

/-- The AI-state component of one tick of the AI state machine: `ai_basic`
(ai.rs lines 24-39) always returns `Ai::Basic`, and `ai_confused` returns
`Confused{previous_ai, num_turns - 1}` while `num_turns ≥ 0` and the
unboxed `previous_ai` once `num_turns < 0`, independently of the random
movement draw. -/
def ai_state_step : Ai → Ai
  | .Basic => .Basic
  | .Confused previous_ai num_turns =>
      if 0 ≤ num_turns then .Confused previous_ai (num_turns - 1) else previous_ai

/-- Rust `cast_confuse` — spells.rs lines 43-65.  The `target_monster`
interaction (a collaborator per spec.md §1/§6) is the explicit `target`
argument.  Returns the `UseResult`, the updated objects, and the updated
game; `none` models the panic on a bad target index. -/
def cast_confuse (target : Option Nat) (objects : List Object) (game : Game) :
    Option (UseResult × List Object × Game) :=
  let game1 := { game with log := game.log ++ ["Left-click an enemy to confuse it, or right click to cancel."] }
  match target with
  | some monster_id =>
      (objects.get? monster_id).map
        (fun obj =>
          let old_ai := obj.ai.getD Ai.Basic
          let objects2 := objects.set monster_id
            { obj with ai := some (Ai.Confused old_ai CONFUSE_NUM_TURNS) }
          (UseResult.UsedUp, objects2,
           { game1 with log := game1.log ++ ["The eyes of the " ++ obj.name ++ " look vacant, as it starts to stumble around!"] }))
  | none =>
      some (UseResult.Cancelled, objects,
        { game1 with log := game1.log ++ ["No enemy is close enough to strike."] })

/-- Rust `Transition` — the depth-transition table entry (u32 `level`, u32
`value`), declared in the absent `user_defined.rs` but fully determined by
its uses in helper.rs lines 21-26 and mapgen.rs lines 112-119. -/
structure Transition where
  level : Nat
  value : Nat
deriving DecidableEq, Repr

/-- Rust `from_dungeon_level` — helper.rs lines 21-26: scan the table from the
back and return the value of the first entry (hence the last in table
order) whose threshold `level` is ≤ the queried level, defaulting to 0. -/
def from_dungeon_level (table : List Transition) (level : Nat) : Nat :=
  match table.reverse.find? (fun transition => decide (transition.level ≤ level)) with
  | some transition => transition.value
  | none => 0

/-- Rust `get_equipped_in_slot` — helper.rs lines 95-102: index of the first
inventory item equipped in the given slot, if any. -/
def get_equipped_in_slot (slot : Slot) (inventory : List Object) : Option Nat :=
  inventory.findIdx?
    (fun item => (item.equipment.map (fun e => e.equipped && decide (e.slot = slot))).getD false)

/-- Rust `Vec::swap_remove` semantics: replace the element at `i` with the last
element and pop (used by `pick_item_up`, helper.rs line 131).  On the
empty list the Rust call would panic; every use below carries an
in-bounds index. -/
def swap_remove (l : List Object) (i : Nat) : List Object :=
  match l.getLast? with
  | some last => (l.set i last).dropLast
  | none => []

/-- Rust `pick_item_up` — helper.rs lines 127-144: with 26 or more items in the
inventory the pickup is rejected with a log message; otherwise the object
is swap-removed from the map list, appended to the inventory, and — when
it is equipment whose slot is free — automatically equipped.  `none`
models the panic on a bad `object_id`. -/
def pick_item_up (object_id : Nat) (objects : List Object) (game : Game) :
    Option (List Object × Game) := do
  if 26 ≤ game.inventory.length then
    let obj ← objects.get? object_id
    pure (objects,
      { game with log := game.log ++ ["Your inventory is full, cannot pick up " ++ obj.name ++ "."] })
  else
    let item ← objects.get? object_id
    let objects2 := swap_remove objects object_id
    let game1 := { game with log := game.log ++ ["You picked up a " ++ item.name ++ "!"] }
    let index := game1.inventory.length
    let slot := item.equipment.map Equipment.slot
    let game2 := { game1 with inventory := game1.inventory ++ [item] }
    match slot with
    | some s =>
        if get_equipped_in_slot s game2.inventory = none then
          match game2.inventory.get? index with
          | some it =>
              let (it2, msg) := it.equip
              pure (objects2,
                { game2 with
                    inventory := game2.inventory.set index it2
                    log := game2.log ++ [msg] })
          | none => none
        else pure (objects2, game2)
    | none => pure (objects2, game2)

/-- Rust `level_up` — helper.rs lines 185-222.  `LEVEL_UP_BASE` and
`LEVEL_UP_FACTOR` live in the absent `constants.rs` and are passed
explicitly (spec.md §4.4: threshold = base + currentLevel × perLevelIncrement).
The blocking `menu` re-prompt loop consumes the `responses` stream (the
player-interaction collaborator): `none` entries are declined prompts, the
first `some` is the accepted stat choice (`menu` only ever returns an
index below the 3 options shown).  The result is `none` when the code
would not return: the `unwrap` panic on a fighterless player, or a
response stream that never supplies a valid choice. -/
def level_up (LEVEL_UP_BASE LEVEL_UP_FACTOR : Int) (player : Object)
    (responses : List (Option (Fin 3))) (log : List String) :
    Option (Object × List String) :=
  let level_up_xp := LEVEL_UP_BASE + player.level * LEVEL_UP_FACTOR
  if level_up_xp ≤ (player.fighter.map Fighter.xp).getD 0 then
    match player.fighter with
    | none => none
    | some f =>
        let player1 := { player with level := player.level + 1 }
        let log1 := log ++ ["Your battle skills grow stringer! You reached level " ++ toString player1.level ++ "!"]
        match responses.findSome? id with
        | none => none
        | some choice =>
            let f1 := { f with xp := f.xp - level_up_xp }
            let f2 :=
              match choice.val with
              | 0 => { f1 with base_max_hp := f1.base_max_hp + 20, hp := f1.hp + 20 }
              | 1 => { f1 with base_power := f1.base_power + 1 }
              | _ => { f1 with base_defense := f1.base_defense + 1 }
            some ({ player1 with fighter := some f2 }, log1)
  else some (player, log)

/-- The emitter-coverage accumulation of `render_all` — render.rs lines
36-42: `in_emitter_light` is overwritten by each emitter FOV query in turn
and the loop breaks at the first `true`; `cover` lists
`fov.is_in_fov(x, y)` for the freshly computed emitter FOVs in order. -/
def in_emitter_light (cover : List Bool) : Bool :=
  cover.foldl (fun acc c => if acc then acc else c) false

/-- The per-tile state update of a `render_all` visibility recompute —
render.rs lines 43-51 (the `lit` overwrite) and lines 88-92 (the
`explored` update, which reads the freshly written `lit`).  `player_fov`
is `tcod.fov.is_in_fov(x, y)` for this tile and `cover` the emitter
coverage flags. -/
def render_tile_update (tile : Tile) (player_fov : Bool) (cover : List Bool) : Tile :=
  let lit := in_emitter_light cover
  let explored := tile.explored || (player_fov || lit)
  { tile with lit := lit, explored := explored }

end UserDefined

section SampleData

open MainRs UserDefined

/-- Concrete attacker with power 5 (hp/defense irrelevant to its own
attack), for the worked example of the combat claim. -/
def atkPower5 : MainRs.Object :=
  { x := 0, y := 0, char := '@', color := MainRs.WHITE, name := "player"
    blocks := true, alive := true
    fighter := some { max_hp := 30, hp := 30, defense := 2, power := 5, on_death := .Player }
    ai := none }

/-- Concrete defender with defense 2 and hp 30. -/
def defDefense2 : MainRs.Object :=
  { x := 1, y := 0, char := 'T', color := MainRs.WHITE, name := "troll"
    blocks := true, alive := true
    fighter := some { max_hp := 30, hp := 30, defense := 2, power := 4, on_death := .Monster }
    ai := some () }

/-- Concrete attacker with power 2. -/
def atkPower2 : MainRs.Object :=
  { atkPower5 with
    fighter := some { max_hp := 30, hp := 30, defense := 2, power := 2, on_death := .Player } }

/-- Concrete defender with defense 5 and hp 30. -/
def defDefense5 : MainRs.Object :=
  { defDefense2 with
    fighter := some { max_hp := 30, hp := 30, defense := 5, power := 4, on_death := .Monster } }

/-- A monster object whose fighter hp is already 0 with the `Monster`
death callback: the input refuting the literal reading of the
non-positive-damage frame claim. -/
def deadOrc : MainRs.Object :=
  { x := 0, y := 0, char := 'o', color := MainRs.WHITE, name := "orc"
    blocks := true, alive := true
    fighter := some { max_hp := 10, hp := 0, defense := 0, power := 3, on_death := .Monster }
    ai := some () }

/-- A concrete already-confused orc of the multi-file version: its AI is
`Confused{Basic, 3}`. -/
def confusedOrc : UserDefined.Object :=
  { x := 2, y := 2, name := "orc", blocks := true, alive := true
    always_visible := false, level := 1
    fighter := some { base_max_hp := 20, hp := 20, base_defense := 0, base_power := 4, xp := 35, on_death := .Monster }
    ai := some (.Confused .Basic 3), item := none, equipment := none, emitter := none }

/-- The player entity of the multi-file version (index 0). -/
def samplePlayer : UserDefined.Object :=
  { x := 1, y := 1, name := "player", blocks := true, alive := true
    always_visible := false, level := 1
    fighter := some { base_max_hp := 100, hp := 100, base_defense := 1, base_power := 2, xp := 130, on_death := .Player }
    ai := none, item := none, equipment := none, emitter := none }

/-- A 3×3 all-floor level map. -/
def floorMap : UserDefined.Map :=
  List.replicate 3 (List.replicate 3 { blocked := false, block_sight := false, explored := false, lit := false })

/-- A small game session over `floorMap` with an empty inventory. -/
def sampleGame : UserDefined.Game :=
  { map := floorMap, log := [], inventory := [], dungeon_level := 1 }

/-- A sword item lying on the map: equipment for the right hand,
not equipped. -/
def swordItem : UserDefined.Object :=
  { x := 2, y := 1, name := "sword", blocks := false, alive := false
    always_visible := true, level := 1
    fighter := none, ai := none, item := some .Sword
    equipment := some { equipped := false, slot := .RightHand, max_hp_bonus := 0, power_bonus := 3, defense_bonus := 0 }
    emitter := none }

/-- A game session whose inventory already holds 26 items (the capacity
bound of `pick_item_up`). -/
def fullGame : UserDefined.Game :=
  { sampleGame with inventory := List.replicate 26 swordItem }

/-- A shield already equipped on the right hand, occupying the slot the
sword would use. -/
def equippedShield : UserDefined.Object :=
  { swordItem with
    name := "shield", item := some .Shield
    equipment := some { equipped := true, slot := .RightHand, max_hp_bonus := 0, power_bonus := 0, defense_bonus := 1 } }

end SampleData

section Helpers

open MainRs UserDefined

/-- In `take_damage` with positive damage, any fighter still present on
the result carries exactly the old hp minus the damage (the `Player`
death callback keeps the fighter, the `Monster` one removes it). -/
theorem take_damage_hp_sub (t : MainRs.Object) (d : Int) (f f' : MainRs.Fighter)
    (hd : 0 < d) (hf : t.fighter = some f)
    (hres : ((t.take_damage d).1).fighter = some f') :
    f'.hp = f.hp - d := by
  by_cases hle : f.hp - d ≤ 0
  · cases hcb : f.on_death with
    | Player =>
        simp [MainRs.Object.take_damage, MainRs.DeathCallback.callback,
          MainRs.player_death, hf, hd, hle, hcb] at hres
        simp [← hres]
    | Monster =>
        simp [MainRs.Object.take_damage, MainRs.DeathCallback.callback,
          MainRs.monster_death, hf, hd, hle, hcb] at hres
  · simp [MainRs.Object.take_damage, hf, hd, hle] at hres
    simp [← hres]

end Helpers

/-- C1: `attack` computes damage as the attacker Fighter power minus the
defender Fighter defense, a missing Fighter contributing 0 (`damage_of`).
If the damage is positive it hands the defender to `take_damage`, whose
surviving fighter hp drops by exactly the damage; otherwise it emits only
the no-effect message and returns the defender unchanged.  Concretely,
power 5 against defense 2 deals 3 damage (hp 30 → 27) and power 2 against
defense 5 deals 0 and leaves the defender untouched. -/
theorem attack_spec :
    (∀ a t : MainRs.Object, 0 < MainRs.damage_of a t →
        (a.attack t).1 = (t.take_damage (MainRs.damage_of a t)).1)
    ∧ (∀ a t : MainRs.Object, ∀ f f' : MainRs.Fighter,
        0 < MainRs.damage_of a t → t.fighter = some f →
        ((a.attack t).1).fighter = some f' → f'.hp = f.hp - MainRs.damage_of a t)
    ∧ (∀ a t : MainRs.Object, MainRs.damage_of a t ≤ 0 →
        a.attack t = (t, [a.name ++ " attacks " ++ t.name ++ " but it has no effect"]))
    ∧ MainRs.damage_of atkPower5 defDefense2 = 3
    ∧ ((atkPower5.attack defDefense2).1).fighter.map MainRs.Fighter.hp = some 27
    ∧ (atkPower2.attack defDefense5).1 = defDefense5 := by
  refine ⟨?_, ?_, ?_, by decide, by decide, by decide⟩
  · intro a t hd
    simp [MainRs.Object.attack, hd]
  · intro a t f f' hd hf hres
    rw [show (a.attack t).1 = (t.take_damage (MainRs.damage_of a t)).1 by
      simp [MainRs.Object.attack, hd]] at hres
    exact take_damage_hp_sub t _ f f' hd hf hres
  · intro a t hd
    simp [MainRs.Object.attack, Int.not_lt.mpr hd]

/-- Witness for C1 at a concrete input: power 5 versus defense 2 has
positive damage and `attack` routes through `take_damage`. -/
theorem attack_spec_witness :
    0 < MainRs.damage_of atkPower5 defDefense2 ∧
    (atkPower5.attack defDefense2).1
      = (defDefense2.take_damage (MainRs.damage_of atkPower5 defDefense2)).1 :=
  ⟨by decide, attack_spec.1 atkPower5 defDefense2 (by decide)⟩

/-- C8 (counterexample): the claim "take_damage with damage ≤ 0 leaves the
Fighter hp field unchanged for every Object" fails at an object whose
fighter hp is already 0 with the Monster death callback: `take_damage 0`
runs the death callback, which removes the Fighter component (and with it
the hp field) entirely. -/
theorem take_damage_cex :
    deadOrc.fighter.map MainRs.Fighter.hp = some 0 ∧
    ((deadOrc.take_damage 0).1).fighter.map MainRs.Fighter.hp = none := by
  decide

/-- C8 (amended): `take_damage` with damage ≤ 0 never writes the hp field:
an object whose fighter hp is positive (or which has no fighter) is
returned entirely unchanged, and in every case a fighter still present on
the result carries exactly its old hp — the only deviation is that an
already-dead fighter (hp ≤ 0) triggers the death callback, which for
monsters removes the Fighter component. -/
theorem take_damage_nonpositive :
    (∀ (o : MainRs.Object) (d : Int), d ≤ 0 →
        ∀ f : MainRs.Fighter, o.fighter = some f → 0 < f.hp → (o.take_damage d).1 = o)
    ∧ (∀ (o : MainRs.Object) (d : Int), d ≤ 0 → o.fighter = none →
        (o.take_damage d).1 = o)
    ∧ (∀ (o : MainRs.Object) (d : Int) (f f' : MainRs.Fighter), d ≤ 0 →
        o.fighter = some f → ((o.take_damage d).1).fighter = some f' → f'.hp = f.hp) := by
  refine ⟨?_, ?_, ?_⟩
  · intro o d hd f hf hhp
    simp [MainRs.Object.take_damage, hf, Int.not_lt.mpr hd, Int.not_le.mpr hhp]
  · intro o d hd hf
    simp [MainRs.Object.take_damage, hf]
  · intro o d f f' hd hf hres
    by_cases hle : f.hp ≤ 0
    · cases hcb : f.on_death with
      | Player =>
          simp [MainRs.Object.take_damage, MainRs.DeathCallback.callback,
            MainRs.player_death, hf, Int.not_lt.mpr hd, hle, hcb] at hres
          simp [← hres]
      | Monster =>
          simp [MainRs.Object.take_damage, MainRs.DeathCallback.callback,
            MainRs.monster_death, hf, Int.not_lt.mpr hd, hle, hcb] at hres
    · simp [MainRs.Object.take_damage, hf, Int.not_lt.mpr hd, hle] at hres
      simp [← hres]

/-- Witness for C8 (amended) at a concrete input: damage −1 on a live
defender leaves it entirely unchanged. -/
theorem take_damage_nonpositive_witness :
    (-1 : Int) ≤ 0 ∧ (defDefense2.take_damage (-1)).1 = defDefense2 :=
  ⟨by decide,
   take_damage_nonpositive.1 defDefense2 (-1) (by decide)
     { max_hp := 30, hp := 30, defense := 2, power := 4, on_death := .Monster }
     rfl (by decide)⟩

open UserDefined

/-- C2: one `ai_confused` tick with `num_turns ≥ 0` moves the monster by
the drawn step `(dx, dy) ∈ {-1,0,1}²` — the no-op included, the move
skipped when the destination is blocked — and yields
`Confused{previous_ai, num_turns - 1}`; with `num_turns < 0` it logs the
no-longer-confused message and yields exactly the unboxed `previous_ai`.
The AI-state component of every successful tick is `ai_state_step`, and
four `ai_state_step` ticks take `Confused{Basic, 2}` back to plain
`Basic`. -/
theorem ai_confused_spec :
    (∀ (id : Nat) (game : Game) (objects : List UserDefined.Object)
        (prev : Ai) (n dx dy : Int) (o : UserDefined.Object) (b : Bool),
        -1 ≤ dx → dx ≤ 1 → -1 ≤ dy → dy ≤ 1 → 0 ≤ n →
        objects.get? id = some o →
        is_blocked (o.x + dx) (o.y + dy) game.map objects = some b →
        ai_confused id game objects prev n dx dy
          = some (.Confused prev (n - 1), game,
              if b then objects else objects.set id (o.set_pos (o.x + dx) (o.y + dy))))
    ∧ (∀ (id : Nat) (game : Game) (objects : List UserDefined.Object)
        (prev : Ai) (n dx dy : Int) (o : UserDefined.Object),
        n < 0 → objects.get? id = some o →
        ai_confused id game objects prev n dx dy
          = some (prev,
              { game with log := game.log ++ ["The " ++ o.name ++ " is no longer confused!"] },
              objects))
    ∧ (∀ (id : Nat) (game : Game) (objects : List UserDefined.Object)
        (prev : Ai) (n dx dy : Int) (r : Ai × Game × List UserDefined.Object),
        ai_confused id game objects prev n dx dy = some r →
        r.1 = ai_state_step (.Confused prev n))
    ∧ ai_state_step^[4] (.Confused .Basic 2) = .Basic := by
  refine ⟨?_, ?_, ?_, by decide⟩
  · intro id game objects prev n dx dy o b _ _ _ _ hn ho hb
    simp only [List.get?_eq_getElem?] at ho
    simp [ai_confused, move_by, hn, ho, hb]
  · intro id game objects prev n dx dy o hn ho
    simp only [List.get?_eq_getElem?] at ho
    simp [ai_confused, Int.not_le.mpr hn, ho]
  · intro id game objects prev n dx dy r hr
    by_cases hn : 0 ≤ n
    · rw [ai_confused, if_pos hn] at hr
      rcases Option.map_eq_some'.mp hr with ⟨objs, _, hval⟩
      simp [← hval, ai_state_step, hn]
    · rw [ai_confused, if_neg hn] at hr
      rcases Option.map_eq_some'.mp hr with ⟨o, _, hval⟩
      simp [← hval, ai_state_step, hn]

/-- Witness for C2 at a concrete input: a confused orc with 0 turns left
on an open 3×3 map, drawing the no-op step (blocked by itself), then one
with −1 turns left restoring `Basic`. -/
theorem ai_confused_spec_witness :
    ai_confused 0 sampleGame [confusedOrc] .Basic 0 0 0
      = some (.Confused .Basic (-1), sampleGame, [confusedOrc])
    ∧ ai_confused 0 sampleGame [confusedOrc] .Basic (-1) 0 0
      = some (.Basic,
          { sampleGame with log := sampleGame.log ++ ["The orc is no longer confused!"] },
          [confusedOrc]) := by
  constructor
  · have h := ai_confused_spec.1 0 sampleGame [confusedOrc] .Basic 0 0 0 confusedOrc true
      (by decide) (by decide) (by decide) (by decide) (by decide) rfl (by decide)
    simpa using h
  · have h := ai_confused_spec.2.1 0 sampleGame [confusedOrc] .Basic (-1) 0 0 confusedOrc
      (by decide) rfl
    simpa using h

/-- C3 (counterexample): casting confuse on an entity whose AI is already
`Confused{Basic, 3}` stores `Confused{Confused{Basic, 3}, CONFUSE_NUM_TURNS}`
— a wrapper nested two levels deep — refuting the claim that re-application
never produces nesting beyond one level. -/
theorem cast_confuse_cex :
    ((cast_confuse (some 1) [samplePlayer, confusedOrc] sampleGame).bind
        (fun r => (r.2.1.get? 1).bind UserDefined.Object.ai))
      = some (.Confused (.Confused .Basic 3) CONFUSE_NUM_TURNS)
    ∧ (Ai.Confused (.Confused .Basic 3) CONFUSE_NUM_TURNS).depth = 2 := by
  constructor
  · rfl
  · decide

/-- C3 (amended): a successful `cast_confuse` on entity `tid` replaces its
AI with `Confused{previous_ai = the AI it held at cast time (Basic if it
had none), num_turns = CONFUSE_NUM_TURNS}` — so re-application always
restarts the duration — and the new wrapper is nested exactly one level
deeper than the AI it wraps, so confusing an already-confused entity
stacks a second wrapper instead of flattening. -/
theorem cast_confuse_spec :
    (∀ (tid : Nat) (objects : List UserDefined.Object) (game : Game)
        (obj : UserDefined.Object),
        objects.get? tid = some obj →
        cast_confuse (some tid) objects game
          = some (.UsedUp,
              objects.set tid
                { obj with ai := some (.Confused (obj.ai.getD .Basic) CONFUSE_NUM_TURNS) },
              { game with log :=
                  (game.log ++ ["Left-click an enemy to confuse it, or right click to cancel."])
                    ++ ["The eyes of the " ++ obj.name ++ " look vacant, as it starts to stumble around!"] }))
    ∧ (∀ cur : Option Ai,
        (Ai.Confused (cur.getD .Basic) CONFUSE_NUM_TURNS).depth = (cur.getD .Basic).depth + 1) := by
  constructor
  · intro tid objects game obj hobj
    simp only [List.get?_eq_getElem?] at hobj
    simp [cast_confuse, hobj]
  · intro cur
    rfl

/-- Witness for C3 (amended) at a concrete input: confusing the
already-confused orc succeeds and consumes the scroll. -/
theorem cast_confuse_spec_witness :
    ((cast_confuse (some 1) [samplePlayer, confusedOrc] sampleGame).map (fun r => r.1))
      = some .UsedUp := by
  have h := cast_confuse_spec.1 1 [samplePlayer, confusedOrc] sampleGame confusedOrc rfl
  rw [h]
  rfl

/-- The inclusive-boundary intersection test is symmetric. -/
theorem intersects_with_symm (a b : MainRs.Rect) :
    a.intersects_with b = b.intersects_with a := by
  simp only [MainRs.Rect.intersects_with, ge_iff_le]
  by_cases h1 : a.x1 ≤ b.x2 <;> by_cases h2 : b.x1 ≤ a.x2 <;>
    by_cases h3 : a.y1 ≤ b.y2 <;> by_cases h4 : b.y1 ≤ a.y2 <;>
    simp [h1, h2, h3, h4]

/-- Invariant of the room-acceptance fold: starting from a pairwise
non-intersecting accumulator, the accumulator stays pairwise
non-intersecting, because a candidate is only appended after the
`any`-scan found no intersection with the rooms accepted so far. -/
theorem accept_rooms_invariant (candidates : List MainRs.Rect) :
    ∀ rooms : List MainRs.Rect,
    rooms.Pairwise (fun a b => a.intersects_with b = false ∧ b.intersects_with a = false) →
    (candidates.foldl
        (fun rooms new_room =>
          if rooms.any (fun other_room => new_room.intersects_with other_room) then rooms
          else rooms ++ [new_room])
        rooms).Pairwise
      (fun a b => a.intersects_with b = false ∧ b.intersects_with a = false) := by
  induction candidates with
  | nil => intro rooms h; exact h
  | cons c cs ih =>
      intro rooms h
      rw [List.foldl_cons]
      by_cases hc : (rooms.any fun other_room => c.intersects_with other_room) = true
      · rw [if_pos hc]
        exact ih rooms h
      · have hfalse : (rooms.any fun other_room => c.intersects_with other_room) = false :=
          Bool.eq_false_iff.mpr hc
        rw [if_neg hc]
        apply ih
        rw [List.pairwise_append]
        refine ⟨h, List.pairwise_singleton _ _, ?_⟩
        intro a ha b hb
        rw [List.mem_singleton] at hb
        subst hb
        have hno : b.intersects_with a = false := by
          have := List.any_eq_false.mp hfalse a ha
          exact Bool.eq_false_iff.mpr this
        exact ⟨by rw [intersects_with_symm a b]; exact hno, hno⟩

/-- C4: over every run of the `make_map` acceptance loop (every stream of
random candidate rectangles), the accepted room list is pairwise free of
intersections under `Rect::intersects_with` — in both argument orders —
so no two accepted rooms, walls included, overlap or share a wall. -/
theorem make_map_rooms_disjoint (candidates : List MainRs.Rect) :
    (MainRs.accept_rooms candidates).Pairwise
      (fun a b => a.intersects_with b = false ∧ b.intersects_with a = false) :=
  accept_rooms_invariant candidates [] List.Pairwise.nil

/-- Backward `find?` over a table equals a forward fold that keeps
overwriting the default with every matching entry: both produce the value
of the last entry whose threshold is at most the level. -/
theorem find_rev_eq_foldl (level : Nat) (table : List Transition) :
    ∀ a : Nat,
    (match table.reverse.find? (fun transition => decide (transition.level ≤ level)) with
     | some transition => transition.value
     | none => a)
      = table.foldl (fun acc t => if t.level ≤ level then t.value else acc) a := by
  induction table using List.reverseRecOn with
  | nil => intro a; rfl
  | append_singleton l t ih =>
      intro a
      rw [List.reverse_append, List.foldl_append]
      simp only [List.reverse_singleton, List.singleton_append, List.find?_cons,
        List.foldl_cons, List.foldl_nil]
      by_cases hp : t.level ≤ level
      · simp [hp]
      · simpa [hp] using ih a

/-- C5: `from_dungeon_level` returns the value of the last table entry
whose threshold level is ≤ the queried dungeon level (expressed as the
forward fold that keeps the last matching value), returns 0 when no entry
matches, and on the table [(1,2),(4,3),(6,5)] at level 5 yields 3.  The
table need not even be sorted: the backward scan always selects the last
matching entry in table order. -/
theorem from_dungeon_level_spec :
    (∀ (table : List Transition) (level : Nat),
        from_dungeon_level table level
          = table.foldl (fun acc t => if t.level ≤ level then t.value else acc) 0)
    ∧ (∀ (table : List Transition) (level : Nat),
        (∀ t ∈ table, level < t.level) → from_dungeon_level table level = 0)
    ∧ from_dungeon_level [⟨1, 2⟩, ⟨4, 3⟩, ⟨6, 5⟩] 5 = 3 := by
  have hfold : ∀ (table : List Transition) (level : Nat),
      from_dungeon_level table level
        = table.foldl (fun acc t => if t.level ≤ level then t.value else acc) 0 := by
    intro table level
    simpa [from_dungeon_level] using find_rev_eq_foldl level table 0
  refine ⟨hfold, ?_, by decide⟩
  intro table level hall
  rw [hfold]
  induction table with
  | nil => rfl
  | cons t ts ih =>
      rw [List.foldl_cons, if_neg (Nat.not_le.mpr (hall t (List.mem_cons_self t ts)))]
      exact ih (fun u hu => hall u (List.mem_cons_of_mem t hu))

/-- Witness for C5 at a concrete input: at dungeon level 0 every threshold
of the example table exceeds the level and the lookup yields 0. -/
theorem from_dungeon_level_spec_witness :
    from_dungeon_level [⟨1, 2⟩, ⟨4, 3⟩, ⟨6, 5⟩] 0 = 0 :=
  from_dungeon_level_spec.2.1 [⟨1, 2⟩, ⟨4, 3⟩, ⟨6, 5⟩] 0 (by decide)

/-- Setting the position just past a list that was extended by one
element replaces that element. -/
theorem set_concat_length {α : Type} (l : List α) (a b : α) :
    (l ++ [a]).set l.length b = l ++ [b] := by
  simp [List.set_append]

/-- Appending an unequipped item to the inventory does not change which
index `get_equipped_in_slot` finds, for any slot. -/
theorem get_equipped_in_slot_concat (s : Slot) (inv : List UserDefined.Object)
    (item : UserDefined.Object) (e : Equipment)
    (hsl : item.equipment = some e) (heq : e.equipped = false) :
    get_equipped_in_slot s (inv ++ [item]) = get_equipped_in_slot s inv := by
  unfold get_equipped_in_slot
  rw [List.findIdx?_append]
  have hnone : List.findIdx?
      (fun it => (it.equipment.map (fun eq => eq.equipped && decide (eq.slot = s))).getD false)
      [item] = none := by
    simp [List.findIdx?_cons, hsl, heq]
  rw [hnone]
  simp

/-- Rust `pick_item_up` success branch for an item that is not equipment. -/
theorem pick_item_up_plain (id : Nat) (objects : List UserDefined.Object)
    (game : Game) (item : UserDefined.Object)
    (hobj : objects.get? id = some item) (hlen : game.inventory.length < 26)
    (hsl : item.equipment = none) :
    pick_item_up id objects game
      = some (swap_remove objects id,
          { game with
              log := game.log ++ ["You picked up a " ++ item.name ++ "!"]
              inventory := game.inventory ++ [item] }) := by
  simp only [List.get?_eq_getElem?] at hobj
  simp [pick_item_up, Nat.not_le.mpr hlen, hobj, hsl]

/-- Rust `pick_item_up` success branch for equipment whose slot is free in the
extended inventory: the item is appended and equipped in place. -/
theorem pick_item_up_free_slot (id : Nat) (objects : List UserDefined.Object)
    (game : Game) (item : UserDefined.Object) (e : Equipment)
    (hobj : objects.get? id = some item) (hlen : game.inventory.length < 26)
    (hsl : item.equipment = some e)
    (hfree : get_equipped_in_slot e.slot (game.inventory ++ [item]) = none) :
    pick_item_up id objects game
      = some (swap_remove objects id,
          { game with
              log := (game.log ++ ["You picked up a " ++ item.name ++ "!"])
                  ++ ["Equipped " ++ item.name ++ "."]
              inventory := game.inventory ++ [(item.equip).1] }) := by
  simp only [List.get?_eq_getElem?] at hobj
  simp [pick_item_up, Nat.not_le.mpr hlen, hobj, hsl, hfree, UserDefined.Object.equip,
    List.getElem?_concat_length, set_concat_length]

/-- Rust `pick_item_up` success branch for equipment whose slot is already
taken in the extended inventory: the item is appended unequipped. -/
theorem pick_item_up_used_slot (id : Nat) (objects : List UserDefined.Object)
    (game : Game) (item : UserDefined.Object) (e : Equipment)
    (hobj : objects.get? id = some item) (hlen : game.inventory.length < 26)
    (hsl : item.equipment = some e)
    (hused : ¬ get_equipped_in_slot e.slot (game.inventory ++ [item]) = none) :
    pick_item_up id objects game
      = some (swap_remove objects id,
          { game with
              log := game.log ++ ["You picked up a " ++ item.name ++ "!"]
              inventory := game.inventory ++ [item] }) := by
  simp only [List.get?_eq_getElem?] at hobj
  simp [pick_item_up, Nat.not_le.mpr hlen, hobj, hsl, hused]

/-- C6: with 26 or more items already in the inventory, `pick_item_up`
only appends the full-inventory message to the log — inventory and map
object list are untouched; with fewer than 26 items the object is
swap-removed from the map object list and appended to the inventory
(possibly with its `equipped` flag switched on by the auto-equip step). -/
theorem pick_item_up_spec :
    (∀ (id : Nat) (objects : List UserDefined.Object) (game : Game)
        (obj : UserDefined.Object),
        objects.get? id = some obj → 26 ≤ game.inventory.length →
        pick_item_up id objects game
          = some (objects,
              { game with log := game.log ++ ["Your inventory is full, cannot pick up " ++ obj.name ++ "."] }))
    ∧ (∀ (id : Nat) (objects : List UserDefined.Object) (game : Game)
        (item : UserDefined.Object),
        objects.get? id = some item → game.inventory.length < 26 →
        ∃ g2 it2, pick_item_up id objects game = some (swap_remove objects id, g2)
          ∧ g2.inventory = game.inventory ++ [it2]
          ∧ (it2 = item ∨ it2 = (item.equip).1)) := by
  constructor
  · intro id objects game obj hobj hlen
    simp only [List.get?_eq_getElem?] at hobj
    simp [pick_item_up, hlen, hobj]
  · intro id objects game item hobj hlen
    cases hsl : item.equipment with
    | none =>
        exact ⟨_, item, pick_item_up_plain id objects game item hobj hlen hsl, rfl, Or.inl rfl⟩
    | some e =>
        by_cases hfree : get_equipped_in_slot e.slot (game.inventory ++ [item]) = none
        · exact ⟨_, (item.equip).1,
            pick_item_up_free_slot id objects game item e hobj hlen hsl hfree, rfl, Or.inr rfl⟩
        · exact ⟨_, item,
            pick_item_up_used_slot id objects game item e hobj hlen hsl hfree, rfl, Or.inl rfl⟩

/-- Witness for C6 at a concrete input: with 26 items already held, the
pickup of a 27th is rejected, leaving inventory and map untouched. -/
theorem pick_item_up_spec_witness :
    pick_item_up 0 [swordItem] fullGame
      = some ([swordItem],
          { fullGame with log := fullGame.log ++ ["Your inventory is full, cannot pick up sword."] }) := by
  have h := pick_item_up_spec.1 0 [swordItem] fullGame swordItem rfl (by decide)
  simpa using h

/-- C10: a successful pickup of an unequipped equipment item auto-equips
it exactly when no inventory item is currently equipped in its slot;
otherwise the item enters the inventory with `equipped` still false.  In
the equip case the appended item is `item.equip` (the `equipped` flag
switched on) and the equip message is logged; in the other case the item
is appended unchanged. -/
theorem pick_item_up_autoequip :
    ∀ (id : Nat) (objects : List UserDefined.Object) (game : Game)
      (item : UserDefined.Object) (e : Equipment),
      objects.get? id = some item → item.equipment = some e → e.equipped = false →
      game.inventory.length < 26 →
      ((item.equip).1.equipment = some { e with equipped := true })
      ∧ (get_equipped_in_slot e.slot game.inventory = none →
          pick_item_up id objects game
            = some (swap_remove objects id,
                { game with
                    log := (game.log ++ ["You picked up a " ++ item.name ++ "!"])
                        ++ ["Equipped " ++ item.name ++ "."]
                    inventory := game.inventory ++ [(item.equip).1] }))
      ∧ (get_equipped_in_slot e.slot game.inventory ≠ none →
          pick_item_up id objects game
            = some (swap_remove objects id,
                { game with
                    log := game.log ++ ["You picked up a " ++ item.name ++ "!"]
                    inventory := game.inventory ++ [item] })) := by
  intro id objects game item e hobj hsl hne hlen
  have hconcat := get_equipped_in_slot_concat e.slot game.inventory item e hsl hne
  refine ⟨by simp [UserDefined.Object.equip, hsl], ?_, ?_⟩
  · intro hfree
    exact pick_item_up_free_slot id objects game item e hobj hlen hsl (hconcat.trans hfree)
  · intro hused
    exact pick_item_up_used_slot id objects game item e hobj hlen hsl
      (fun h => hused (hconcat.symm.trans h))

/-- Witness for C10 at concrete inputs: picking the sword up into an
empty inventory auto-equips it; picking it up while a shield is equipped
in the right hand leaves it unequipped. -/
theorem pick_item_up_autoequip_witness :
    pick_item_up 1 [samplePlayer, swordItem] sampleGame
      = some ([samplePlayer],
          { sampleGame with
              log := (sampleGame.log ++ ["You picked up a sword!"]) ++ ["Equipped sword."]
              inventory := sampleGame.inventory ++ [(swordItem.equip).1] })
    ∧ pick_item_up 1 [samplePlayer, swordItem]
        { sampleGame with inventory := [equippedShield] }
      = some ([samplePlayer],
          { sampleGame with
              log := sampleGame.log ++ ["You picked up a sword!"]
              inventory := [equippedShield] ++ [swordItem] }) := by
  constructor
  · have h := (pick_item_up_autoequip 1 [samplePlayer, swordItem] sampleGame swordItem
      { equipped := false, slot := .RightHand, max_hp_bonus := 0, power_bonus := 3, defense_bonus := 0 }
      rfl rfl rfl (by decide)).2.1 (by decide)
    simpa using h
  · have h := (pick_item_up_autoequip 1 [samplePlayer, swordItem]
      { sampleGame with inventory := [equippedShield] } swordItem
      { equipped := false, slot := .RightHand, max_hp_bonus := 0, power_bonus := 3, defense_bonus := 0 }
      rfl rfl rfl (by decide)).2.2 (by decide)
    simpa using h

/-- C7: `level_up` levels exactly when the fighter xp reaches
`LEVEL_UP_BASE + level * LEVEL_UP_FACTOR` computed from the pre-level-up
level; it then increments the level by 1, takes the first valid choice
the re-prompting menu loop obtains (declined prompts are skipped
unchanged), and subtracts the threshold from xp instead of zeroing it —
with threshold 100 and xp 130 the post-level xp is 30. -/
theorem level_up_spec :
    (∀ (base factor : Int) (player : UserDefined.Object)
        (responses : List (Option (Fin 3))) (log : List String) (f : Fighter),
        player.fighter = some f → f.xp < base + player.level * factor →
        level_up base factor player responses log = some (player, log))
    ∧ (∀ (base factor : Int) (player : UserDefined.Object)
        (responses : List (Option (Fin 3))) (log : List String) (f : Fighter) (c : Fin 3),
        player.fighter = some f → base + player.level * factor ≤ f.xp →
        responses.findSome? id = some c →
        ∃ p2 log2, level_up base factor player responses log = some (p2, log2)
          ∧ p2.level = player.level + 1
          ∧ p2.fighter.map Fighter.xp = some (f.xp - (base + player.level * factor)))
    ∧ (∀ (base factor : Int) (player : UserDefined.Object)
        (responses : List (Option (Fin 3))) (log : List String),
        level_up base factor player (none :: responses) log
          = level_up base factor player responses log)
    ∧ ((level_up 100 0 samplePlayer [some 0] []).map
          (fun r => (r.1.level, r.1.fighter.map Fighter.xp))
        = some (2, some 30)) := by
  refine ⟨?_, ?_, ?_, by decide⟩
  · intro base factor player responses log f hf hlt
    simp [level_up, hf, Int.not_le.mpr hlt]
  · intro base factor player responses log f c hf hle hfind
    fin_cases c <;> simp [level_up, hf, hle, hfind]
  · intro base factor player responses log
    simp [level_up, List.findSome?_cons]

/-- Witness for C7 at a concrete input: with the tutorial threshold
200 + 1·150 = 350 and only 130 xp, `level_up` changes nothing. -/
theorem level_up_spec_witness :
    level_up 200 150 samplePlayer [] [] = some (samplePlayer, []) :=
  level_up_spec.1 200 150 samplePlayer [] []
    { base_max_hp := 100, hp := 100, base_defense := 1, base_power := 2, xp := 130, on_death := .Player }
    rfl (by decide)

/-- The emitter-coverage loop computes exactly "some emitter covers the
tile". -/
theorem in_emitter_light_eq_any (cover : List Bool) :
    in_emitter_light cover = cover.any id := by
  have hgen : ∀ acc : Bool,
      cover.foldl (fun acc c => if acc then acc else c) acc = (acc || cover.any id) := by
    induction cover with
    | nil => intro acc; simp
    | cons c cs ih => intro acc; cases acc <;> simp [List.foldl_cons, ih]
  simpa [in_emitter_light] using hgen false

/-- C9: after a `render_all` visibility recompute, a tile is lit exactly
when some freshly computed emitter FOV covers it — the previous lit value
is fully overwritten, never accumulated — while the explored flag is the
old flag or-ed with player FOV and the new lit value: it becomes true
exactly when the tile is in the player FOV or lit, and once true it never
reverts. -/
theorem render_tile_update_spec :
    (∀ (tile : Tile) (player_fov : Bool) (cover : List Bool),
        (render_tile_update tile player_fov cover).lit = cover.any id)
    ∧ (∀ (tile : Tile) (player_fov : Bool) (cover : List Bool),
        (render_tile_update tile player_fov cover).explored
          = (tile.explored || (player_fov || cover.any id)))
    ∧ (∀ (tile : Tile) (player_fov : Bool) (cover : List Bool),
        tile.explored = true → (render_tile_update tile player_fov cover).explored = true) := by
  refine ⟨?_, ?_, ?_⟩
  · intro tile player_fov cover
    simp [render_tile_update, in_emitter_light_eq_any]
  · intro tile player_fov cover
    simp [render_tile_update, in_emitter_light_eq_any]
  · intro tile player_fov cover hex
    simp [render_tile_update, hex]

/-- Witness for C9 at a concrete input: an explored dark floor tile stays
explored through a recompute with no player FOV and no emitters. -/
theorem render_tile_update_spec_witness :
    (render_tile_update
        { blocked := false, block_sight := false, explored := true, lit := false }
        false []).explored = true :=
  render_tile_update_spec.2.2
    { blocked := false, block_sight := false, explored := true, lit := false }
    false [] rfl
